import Mathlib

/-!
Shallow embedding of `src/ssh.py` (classes `SshTunnelPool` and `Ssh`).

The embedding models:
  - the tunnel pool registry (`SshTunnelPool.get_tunnel`, `SshTunnelPool.kill_tunnel`,
    `SshTunnelPool.__del__`) as an association list from the pooling key to the
    pooled subprocess;
  - the non-blocking line reader `Ssh._noblock_read_line` over a snapshot of the
    bytes that are immediately available on a pipe (`select` says "readable"
    exactly when the snapshot list is non-empty; an end-of-file event, where
    `fh.read(1)` returns the empty string, is a `none` entry that stays in the
    pipe);
  - the polling loop of `Ssh._communicate` as a fuel-indexed recursion driven by
    a trace: per-iteration newly arrived pipe data and the values that
    `time.time() - time_start` takes at each evaluation of the `while` guard and
    at the post-loop timeout test;
  - the shell-mode completion regex `(RET=\d+)\n` of `Ssh.run` (searched with
    `re.search(..., re.MULTILINE)`; the pattern contains no `^`/`$`, so the
    MULTILINE flag is inert and the search is a plain leftmost substring match
    with a greedy digit run), and the three fatal stderr signatures of
    `Ssh._communicate` (in them, `.` and `.*` range over arbitrary characters;
    the lines they are applied to never contain a newline, since the reader
    strips `\r` and stops at `\n`);
  - the post-exchange result parsing of `Ssh.run` in shell mode (`split('=', 1)`,
    the non-zero check, and the exceptions it raises).

Exceptions are represented as result constructors; Python's `time.time()` is an
arbitrary integer-valued trace, and writing the wire string to the tunnel's
stdin (line 224) is recorded in the `sentLines` field of the state.
-/

namespace SshModel

/-- Status of a `subprocess.Popen` process as observed through `poll()`:
`running` means `poll()` returns `None`; `exited c` means `poll()` returns the
exit status `c` (negative values stand for death by signal). -/
inductive ProcStatus
  | running
  | exited (code : Int)
deriving DecidableEq, Repr

/-- A pooled transport subprocess (`subprocess.Popen` value stored in
`SshTunnelPool.tunnels`), reduced to an identity and its observable status. -/
structure Proc where
  pid : Nat
  status : ProcStatus
deriving DecidableEq, Repr

/-- The pool registry `SshTunnelPool.tunnels`: a mapping from the pooling key
`"%s-%s" % (hostname, daemon)` to the pooled process.  Keys are unique by
construction (`get_tunnel` only inserts a key that is absent). -/
abbrev Pool := List (String × Proc)

/-- Python truthiness of `tunnel.poll()` as used in `if tunnel.poll():`
(src/ssh.py line 219): `None` is falsy, and so is the exit status `0`. -/
def pollTruthy : ProcStatus → Bool
  | ProcStatus.running => false
  | ProcStatus.exited c => decide (c ≠ 0)

/-- `key in self.tunnels` / `self.tunnels[key]` lookup. -/
def findTunnel : Pool → String → Option Proc
  | [], _ => Option.none
  | (k, p) :: rest, key => if k = key then some p else findTunnel rest key

/-- `SshTunnelPool.get_tunnel` (src/ssh.py lines 40-78), restricted to the pool
registry: return the pooled process for `key` if present, otherwise register
`fresh` (the newly spawned `subprocess.Popen`) under `key` and return it.  The
argument-vector construction for the spawn is not modelled; no claim mentions
it. -/
def get_tunnel (pool : Pool) (key : String) (fresh : Proc) : Proc × Pool :=
  match findTunnel pool key with
  | some p => (p, pool)
  | Option.none => (fresh, pool ++ [(key, fresh)])

/-- `SshTunnelPool.kill_tunnel` (src/ssh.py lines 80-97): if `key` is registered,
best-effort kill the process (any exception from `kill()` is caught and only
logged, so the function never raises) and delete the registry entry; an absent
key is a no-op.  Only the registry effect is modelled; the function is total
because the source swallows every kill failure and guards the `del` by
`if key in self.tunnels`. -/
def kill_tunnel (pool : Pool) (key : String) : Pool :=
  if pool.any (fun e => e.1 == key) then pool.filter (fun e => !(e.1 == key))
  else pool

/-- Exit condition of the `for key in self.tunnels` loop of
`SshTunnelPool.__del__`: normal completion, the CPython
`RuntimeError: dictionary changed size during iteration`, or the `ValueError`
that tuple-unpacking `hostname, daemon = key.split('-', 1)` raises when the key
contains no `-`. -/
inductive DelExit
  | done
  | runtimeDictErr
  | unpackValueErr
deriving DecidableEq, Repr

/-- Python `key.split(sep, 1)` restricted to what the source consumes: `some
(before, after)` when `sep` occurs in the list (split at its first occurrence),
`none` when it does not (in which case `split` returns a one-element list and a
two-variable tuple unpacking of it raises `ValueError`). -/
def pySplitFirst (sep : Char) : List Char → Option (List Char × List Char)
  | [] => Option.none
  | c :: rest =>
    if c = sep then some ([], rest)
    else
      match pySplitFirst sep rest with
      | Option.none => Option.none
      | some (a, b) => some (c :: a, b)

/-- One pass of the `for key in self.tunnels` loop of `SshTunnelPool.__del__`
(src/ssh.py lines 99-103) under CPython dict-iterator semantics: the iterator
records the dict's size (`diUsed`) at creation and every `next()` call — the
call that would report exhaustion included — first compares it with the current
size, raising `RuntimeError` on mismatch; the body
splits the key at the first `-`, re-formats `"%s-%s" % (hostname, daemon)` (now
with `daemon` a string) and calls `kill_tunnel`, which deletes the entry. -/
def delIter (diUsed : Nat) : List String → Pool → Pool × DelExit
  | [], pool =>
    if pool.length ≠ diUsed then (pool, DelExit.runtimeDictErr) else (pool, DelExit.done)
  | k :: rest, pool =>
    if pool.length ≠ diUsed then (pool, DelExit.runtimeDictErr)
    else
      match pySplitFirst '-' k.toList with
      | Option.none => (pool, DelExit.unpackValueErr)
      | some (h, d) => delIter diUsed rest (kill_tunnel pool (String.mk (h ++ '-' :: d)))

/-- `SshTunnelPool.__del__` (src/ssh.py lines 99-103): iterate over the live
registry, killing each tunnel; returns the final registry together with how the
loop ended. -/
def poolDel (pool : Pool) : Pool × DelExit :=
  delIter pool.length (pool.map Prod.fst) pool

/-- Helper of `Ssh._noblock_read_line`: the recursion of the
`while select...: c = fh.read(1)` loop.  The pipe snapshot is the list of
immediately available read events: `some c` is a byte, `none` is an end-of-file
condition (`read(1)` returns `''`; the descriptor stays at end of file, so the
`none` is not consumed).  `select` reports readable exactly while the snapshot
is non-empty. -/
def noblockAux : List Char → List (Option Char) → List Char × List (Option Char)
  | line, [] => (line, [])
  | line, Option.none :: rest => (line, Option.none :: rest)
  | line, some c :: rest =>
    if c = '\r' then noblockAux line rest
    else if c = '\n' then (line, rest)
    else noblockAux (line ++ [c]) rest

/-- `Ssh._noblock_read_line` (src/ssh.py lines 198-210): read single characters
while data is immediately available, ignoring `'\r'`, stopping at `'\n'` (the
newline is consumed but not returned), at end of file, or when nothing further
is immediately available; whatever was accumulated — including a partial line
with no terminating newline — is returned at once.  Returns the line and the
unread remainder of the pipe snapshot. -/
def noblock_read_line (avail : List (Option Char)) : List Char × List (Option Char) :=
  noblockAux [] avail

/-- `l₁` is an initial segment of `l₂`. -/
def leadsWith : List Char → List Char → Bool
  | [], _ => true
  | _ :: _, [] => false
  | a :: as, b :: bs => a == b && leadsWith as bs

/-- The literal `needle` occurs as a contiguous substring of the line. -/
def occurs : List Char → List Char → Bool
  | needle, [] => leadsWith needle []
  | needle, c :: rest => leadsWith needle (c :: rest) || occurs needle rest

/-- `re.search` of `<lit>.` — the literal followed by one further character —
against a line (the lines fed to it contain no newline, so `.` is any
character). -/
def litAnySearch (lit : List Char) : List Char → Bool
  | [] => false
  | c :: rest =>
    (leadsWith lit (c :: rest) && decide (lit.length < (c :: rest).length)) ||
      litAnySearch lit rest

/-- `re.search` of `<a>.*<b>` against a line: some occurrence of the literal `a`
followed, after arbitrary characters, by the literal `b` (the lines fed to it
contain no newline, so `.*` is unrestricted). -/
def litLitSearch (a b : List Char) : List Char → Bool
  | [] => leadsWith a [] && occurs b []
  | c :: rest =>
    (leadsWith a (c :: rest) && occurs b ((c :: rest).drop a.length)) ||
      litLitSearch a b rest

/-- `re.search(r'Host key verification failed.', line_err)` (src/ssh.py
line 256). -/
def hostKeyErrSig (line : List Char) : Bool :=
  litAnySearch ("Host key verification failed").toList line

/-- `re.search(r'Could not resolve hostname .*: Name or service not known',
line_err)` (src/ssh.py line 260). -/
def resolveErrSig (line : List Char) : Bool :=
  litLitSearch ("Could not resolve hostname ").toList
    (": Name or service not known").toList line

/-- `re.search(r'connect to host .*: Connection timed out', line_err)`
(src/ssh.py line 264). -/
def connTimeoutErrSig (line : List Char) : Bool :=
  litLitSearch ("connect to host ").toList (": Connection timed out").toList line

/-- Python 2 `\d` on a byte string: the ASCII digits. -/
def isDigitCh (c : Char) : Bool := decide ('0' ≤ c) && decide (c ≤ '9')

/-- Maximal leading digit run of a list and the remainder (the behaviour of the
greedy `\d+` of the regex engine at a fixed position). -/
def digitSpan : List Char → List Char × List Char
  | [] => ([], [])
  | c :: rest =>
    if isDigitCh c then
      let p := digitSpan rest
      (c :: p.1, p.2)
    else ([], c :: rest)

/-- The four literal characters `RET=` opening the shell-mode completion
pattern. -/
def retHead : List Char := ['R', 'E', 'T', '=']

/-- The regex `(RET=\d+)\n` anchored at the start of `s`: the literal `RET=`,
then a greedy non-empty digit run, then `\n`; on success the captured group 1
(`RET=` plus the digits).  Greediness loses nothing: every backtracked position
of `\d+` ends on a digit, never on `\n`, so the match at a position succeeds
exactly when the character after the maximal digit run is a newline. -/
def matchRetAt (s : List Char) : Option (List Char) :=
  if leadsWith retHead s then
    let p := digitSpan (s.drop 4)
    match p.1, p.2 with
    | d₁ :: ds, '\n' :: _ => some (retHead ++ d₁ :: ds)
    | _, _ => Option.none
  else Option.none

/-- `re.search(r"(RET=\d+)\n", s, re.MULTILINE)` (src/ssh.py lines 249 and 306),
returning group 1 of the leftmost match.  The pattern has no `^` or `$`, so
`re.MULTILINE` does not affect it and the search tries every position from the
left. -/
def retSearch : List Char → Option (List Char)
  | [] => Option.none
  | c :: rest =>
    match matchRetAt (c :: rest) with
    | some g => some g
    | Option.none => retSearch rest

/-- The time comparison inside the `while` guard of `Ssh._communicate`
(line 230): `not timeout or (time.time() - time_start < timeout)`.  `timeout`
is `None` or an integer; `None` and `0` are falsy, so for them the guard is
unconditionally true. -/
def guardTimeOk (t : Option Int) (elapsed : Int) : Bool :=
  match t with
  | Option.none => true
  | some n => if n = 0 then true else decide (elapsed < n)

/-- The post-loop timeout test of `Ssh._communicate` (line 273):
`timeout and (time.time() - time_start >= timeout)`. -/
def postTimedOut (t : Option Int) (elapsed : Int) : Bool :=
  match t with
  | Option.none => false
  | some n => if n = 0 then false else decide (n ≤ elapsed)

/-- The environment one call of `Ssh._communicate` runs in: `arrivals i` is the
data newly arrived on (stdout, stderr) before polling iteration `i`;
`elapsedGuard i` is the value of `time.time() - time_start` when the `while`
guard is evaluated for the `i`-th time; `elapsedEnd` is its value at the
post-loop timeout test of line 273. -/
structure CommTrace where
  arrivals : Nat → List (Option Char) × List (Option Char)
  elapsedGuard : Nat → Int
  elapsedEnd : Int

/-- The mutable state `Ssh._communicate` acts on: the accumulated `self.stdout`
and `self.stderr` buffers, `self.retval`, the pool registry, the unread
remainders of the two pipes, and the record of strings written to the tunnel's
stdin. -/
structure CommState where
  stdout : List Char
  stderr : List Char
  retval : Option (List Char)
  pool : Pool
  outBuf : List (Option Char)
  errBuf : List (Option Char)
  sentLines : List (List Char)
deriving DecidableEq, Repr

/-- The three fatal ssh stderr signatures of `Ssh._communicate`
(lines 256-266). -/
inductive SshErrKind
  | hostKey
  | resolve
  | connTimeout
deriving DecidableEq, Repr

/-- How the `while` loop of `Ssh._communicate` ends: `broke` is the `break`
after a successful pattern match (line 253), `guardFalse` is the guard turning
false, `raised` is one of the three `SshException` raises on a fatal stderr
signature (with the tunnel already evicted), and `fuelOut` means the modelled
trace ran out before the loop ended (the loop is still running). -/
inductive LoopExit
  | broke (st : CommState)
  | guardFalse (st : CommState)
  | raised (k : SshErrKind) (st : CommState)
  | fuelOut (st : CommState)
deriving DecidableEq, Repr

/-- The polling `while` loop of `Ssh._communicate` (src/ssh.py lines 230-266).
`m` is `re.search` of the completion pattern returning group 1; `gOk i` is the
time part of the guard at its `i`-th evaluation; `arr` the per-iteration
arrivals; `key` the pooling key used for eviction.  Each iteration reads one
line non-blockingly from each pipe; if both are empty it sleeps and re-enters
the guard; otherwise it appends the non-empty ones (each with an added `'\n'`)
to the accumulated buffers, tests the accumulated stdout against the completion
pattern (recording group 1 in `retval` and breaking on success), and then tests
the freshly read stderr line against the three fatal signatures, evicting and
raising on a hit.  The `not finished` conjunct of the guard is represented by
`broke` exiting the recursion directly. -/
def commLoop (m : List Char → Option (List Char)) (gOk : Nat → Bool) (key : String)
    (arr : Nat → List (Option Char) × List (Option Char)) :
    Nat → Nat → CommState → LoopExit
  | i, 0, st =>
    if gOk i then LoopExit.fuelOut st else LoopExit.guardFalse st
  | i, Nat.succ fuel, st =>
    if gOk i then
      match noblock_read_line (st.outBuf ++ (arr i).1),
          noblock_read_line (st.errBuf ++ (arr i).2) with
      | (lineOut, outRest), (lineErr, errRest) =>
        if lineOut.isEmpty && lineErr.isEmpty then
          commLoop m gOk key arr (i + 1) fuel { st with outBuf := outRest, errBuf := errRest }
        else
          let st2 : CommState := { st with
            stdout := if lineOut.isEmpty then st.stdout else st.stdout ++ lineOut ++ ['\n'],
            stderr := if lineErr.isEmpty then st.stderr else st.stderr ++ lineErr ++ ['\n'],
            outBuf := outRest, errBuf := errRest }
          match m st2.stdout with
          | some g => LoopExit.broke { st2 with retval := some g }
          | Option.none =>
            if hostKeyErrSig lineErr then
              LoopExit.raised SshErrKind.hostKey { st2 with pool := kill_tunnel st2.pool key }
            else if resolveErrSig lineErr then
              LoopExit.raised SshErrKind.resolve { st2 with pool := kill_tunnel st2.pool key }
            else if connTimeoutErrSig lineErr then
              LoopExit.raised SshErrKind.connTimeout { st2 with pool := kill_tunnel st2.pool key }
            else commLoop m gOk key arr (i + 1) fuel st2
    else LoopExit.guardFalse st

/-- The tunnel acquisition and liveness check opening `Ssh._communicate`
(src/ssh.py lines 216-222): fetch (or spawn) the pooled tunnel; if
`tunnel.poll()` is truthy, evict it and acquire a fresh one.  `fresh1` and
`fresh2` are the processes a spawn would produce at each of the two possible
spawn points. -/
def acquireChannel (pool : Pool) (key : String) (fresh1 fresh2 : Proc) : Proc × Pool :=
  let a := get_tunnel pool key fresh1
  if pollTruthy a.1.status then get_tunnel (kill_tunnel a.2 key) key fresh2
  else a

/-- The state carried by a loop exit (every exit carries exactly one). -/
def exitState : LoopExit → CommState
  | LoopExit.broke st => st
  | LoopExit.guardFalse st => st
  | LoopExit.raised _ st => st
  | LoopExit.fuelOut st => st

/-- The result of one `Ssh._communicate` call: normal return, one of the three
fatal `SshException`s, the `SshCmdTimeoutException` of line 276 (in both raising
cases the carried state already reflects the eviction), or `diverged` when the
modelled trace ends with the loop still polling. -/
inductive CommResult
  | ok (st : CommState)
  | sshErr (k : SshErrKind) (st : CommState)
  | cmdTimeout (st : CommState)
  | diverged (st : CommState)
deriving DecidableEq, Repr

/-- `Ssh._communicate` (src/ssh.py lines 212-276): acquire the tunnel (respawning
a dead one), write the wire string plus `'\n'` to its stdin (recorded in
`sentLines`), run the polling loop, and finally — regardless of whether the loop
ended by `break` or by its guard — apply the line 273 test
`timeout and (time.time() - time_start >= timeout)`, evicting the tunnel and
raising `SshCmdTimeoutException` when it holds. -/
def communicate (m : List Char → Option (List Char)) (t : Option Int) (key : String)
    (fresh1 fresh2 : Proc) (wire : List Char) (tr : CommTrace) (fuel : Nat)
    (stIn : CommState) : CommResult :=
  let a := acquireChannel stIn.pool key fresh1 fresh2
  let st0 : CommState := { stIn with pool := a.2, sentLines := stIn.sentLines ++ [wire] }
  match commLoop m (fun i => guardTimeOk t (tr.elapsedGuard i)) key tr.arrivals 0 fuel st0 with
  | LoopExit.raised k st => CommResult.sshErr k st
  | LoopExit.fuelOut st => CommResult.diverged st
  | LoopExit.broke st =>
    if postTimedOut t tr.elapsedEnd then
      CommResult.cmdTimeout { st with pool := kill_tunnel st.pool key }
    else CommResult.ok st
  | LoopExit.guardFalse st =>
    if postTimedOut t tr.elapsedEnd then
      CommResult.cmdTimeout { st with pool := kill_tunnel st.pool key }
    else CommResult.ok st

/-- The `timeout` argument of `Ssh.run` as a dynamically typed Python value:
`None`, an `int`, or some truthy value of a non-integer type (a float, a string,
…).  Falsy non-integer values behave like `None` throughout `run` and
`_communicate` (every use of `timeout` first tests its truthiness), so they are
not distinguished. -/
inductive PyTimeoutArg
  | pyNone
  | pyInt (n : Int)
  | truthyNonInt
deriving DecidableEq, Repr

/-- Python truthiness of the `timeout` argument: `None` and `0` are falsy. -/
def timeoutTruthy : PyTimeoutArg → Bool
  | PyTimeoutArg.pyNone => false
  | PyTimeoutArg.pyInt n => decide (n ≠ 0)
  | PyTimeoutArg.truthyNonInt => true

/-- `isinstance(timeout, IntType)`. -/
def isIntArg : PyTimeoutArg → Bool
  | PyTimeoutArg.pyInt _ => true
  | _ => false

/-- The `timeout` validation of `Ssh.run` (src/ssh.py line 283):
`if timeout and not isinstance(timeout, IntType): raise TypeError(...)`. -/
def timeoutBad (t : PyTimeoutArg) : Bool := timeoutTruthy t && !(isIntArg t)

/-- The value `_communicate` receives for `timeout` when validation passed. -/
def toTimeout : PyTimeoutArg → Option Int
  | PyTimeoutArg.pyInt n => some n
  | _ => Option.none

/-- `' '.join(cmd)`. -/
def joinSpace : List (List Char) → List Char
  | [] => []
  | [x] => x
  | x :: y :: rest => x ++ ' ' :: joinSpace (y :: rest)

/-- The shell fragment appended in shell mode (src/ssh.py line 303). -/
def shellTail : List Char := (" && echo \"RET=\"$? || echo \"RET=\"$?").toList

/-- The shell-mode wire string of `Ssh.run` (line 303):
`' '.join(cmd) + ' && echo "RET="$? || echo "RET="$?'`. -/
def shellWire (cmd : List (List Char)) : List Char := joinSpace cmd ++ shellTail

/-- The state at the start of an exchange after `Ssh.run` reset
`self.retval = None; self.stdout = ''; self.stderr = ''` (lines 286-288), with
fresh pipes and no stdin writes recorded yet. -/
def initComm (pool : Pool) : CommState :=
  { stdout := [], stderr := [], retval := Option.none, pool := pool,
    outBuf := [], errBuf := [], sentLines := [] }

/-- The result of a shell-mode `Ssh.run` call: the `TypeError` of argument
validation, the exceptions forwarded from `_communicate`, the
`SshException('Failed to parse return value...')` of line 310, the `ValueError`
a `split` without `=` would cause in the unpacking of line 312, the
`SshCmdFailedException` of line 316 carrying the parsed (non-zero) code, a
normal return of `self.stdout`, or divergence of the modelled trace. -/
inductive RunResult
  | typeErr
  | sshErr (k : SshErrKind) (st : CommState)
  | cmdTimeout (st : CommState)
  | parseFail (st : CommState)
  | unpackErr (st : CommState)
  | cmdFailed (code : List Char) (st : CommState)
  | okRun (captured : List Char) (st : CommState)
  | diverged (st : CommState)
deriving DecidableEq, Repr

/-- The post-exchange steps of shell-mode `Ssh.run` (src/ssh.py lines 309-318):
if no result was recorded, raise `SshException` (no eviction — the pool is left
untouched); otherwise split the matched group at the first `=`, store the tail
as `self.retval`, raise `SshCmdFailedException` if it differs from `'0'`, else
return `self.stdout`. -/
def runParse (st : CommState) : RunResult :=
  match st.retval with
  | Option.none => RunResult.parseFail st
  | some r =>
    match pySplitFirst '=' r with
    | Option.none => RunResult.unpackErr st
    | some (_, code) =>
      let st' : CommState := { st with retval := some code }
      if code ≠ ['0'] then RunResult.cmdFailed code st'
      else RunResult.okRun st'.stdout st'

/-- Shell-mode `Ssh.run` (src/ssh.py lines 278-318): validate the `timeout`
argument (the `cmd` argument is a list of strings by the type of the embedding,
so its `_check_is_list_of_strings` validation always passes), reset the
captured state, build the wire string, run the exchange with the `(RET=\d+)\n`
completion pattern, and parse the result. -/
def runShell (cmd : List (List Char)) (t : PyTimeoutArg) (key : String)
    (fresh1 fresh2 : Proc) (tr : CommTrace) (fuel : Nat) (pool : Pool) : RunResult :=
  if timeoutBad t then RunResult.typeErr
  else
    match communicate retSearch (toTimeout t) key fresh1 fresh2 (shellWire cmd) tr fuel
        (initComm pool) with
    | CommResult.sshErr k st => RunResult.sshErr k st
    | CommResult.cmdTimeout st => RunResult.cmdTimeout st
    | CommResult.diverged st => RunResult.diverged st
    | CommResult.ok st => runParse st

/-- A concrete exchange environment: the remote replies `RET=0` on the very
first poll, but the clock has already reached the timeout budget (1 second) by
the time the post-loop test of line 273 runs. -/
def trMatchAtBudget : CommTrace :=
  { arrivals := fun i => if i = 0 then ((String.toList "RET=0\n").map some, []) else ([], []),
    elapsedGuard := fun _ => 0, elapsedEnd := 1 }

/-- A concrete exchange environment in which nothing ever arrives and no time
passes. -/
def trQuiet : CommTrace :=
  { arrivals := fun _ => ([], []), elapsedGuard := fun _ => 0, elapsedEnd := 0 }

/-- A concrete exchange environment: the first poll finds the two characters
`fo` immediately available on stdout, with no terminating newline. -/
def trFoPending : CommTrace :=
  { arrivals := fun i => if i = 0 then ([some 'f', some 'o'], []) else ([], []),
    elapsedGuard := fun _ => 0, elapsedEnd := 0 }

/-- A concrete exchange environment: the remote's only output line is
`SECRET=3`. -/
def trSecretLine : CommTrace :=
  { arrivals := fun i => if i = 0 then ((String.toList "SECRET=3\n").map some, []) else ([], []),
    elapsedGuard := fun _ => 0, elapsedEnd := 0 }

/-- A concrete exchange environment: the remote replies `RET=1` (the framing a
command exiting with status 1 produces) on the first poll. -/
def trRetOne : CommTrace :=
  { arrivals := fun i => if i = 0 then ((String.toList "RET=1\n").map some, []) else ([], []),
    elapsedGuard := fun _ => 0, elapsedEnd := 0 }

/-- After filtering out every entry with key `key`, no entry with key `key` is
left. -/
theorem filterKey_not_any (p : Pool) (key : String) :
    (p.filter (fun e => !(e.1 == key))).any (fun e => e.1 == key) = false := by
  induction p with
  | nil => rfl
  | cons e rest ih =>
    by_cases h : e.1 == key
    · simp [List.filter_cons, h, ih]
    · simp only [List.filter_cons] at *
      simp [h, ih]

/-- `leadsWith p s` holds exactly when `s` extends `p`. -/
theorem leadsWith_iff (p : List Char) : ∀ s : List Char,
    leadsWith p s = true ↔ ∃ t, s = p ++ t := by
  induction p with
  | nil => intro s; simp [leadsWith]
  | cons a as ih =>
    intro s
    cases s with
    | nil =>
      simp [leadsWith]
    | cons b bs =>
      simp only [leadsWith, Bool.and_eq_true, beq_iff_eq, ih, List.cons_append,
        List.cons.injEq]
      constructor
      · rintro ⟨h1, t, h2⟩
        exact ⟨t, h1.symm, h2⟩
      · rintro ⟨t, h1, h2⟩
        exact ⟨h1.symm, t, h2⟩

/-- The two components of `digitSpan` reassemble the input. -/
theorem digitSpan_append : ∀ l : List Char, (digitSpan l).1 ++ (digitSpan l).2 = l := by
  intro l
  induction l with
  | nil => rfl
  | cons c rest ih =>
    by_cases h : isDigitCh c = true
    · simp [digitSpan, h, ih]
    · simp [digitSpan, h]

/-- Every character of the first component of `digitSpan` is a digit. -/
theorem digitSpan_all : ∀ l : List Char, ((digitSpan l).1).all isDigitCh = true := by
  intro l
  induction l with
  | nil => rfl
  | cons c rest ih =>
    by_cases h : isDigitCh c = true
    · simp [digitSpan, h, ih]
    · simp [digitSpan, h]

/-- `digitSpan` on a digit run followed by a non-digit splits exactly there. -/
theorem digitSpan_exact (c : Char) (r : List Char) (hc : isDigitCh c = false) :
    ∀ d : List Char, d.all isDigitCh = true → digitSpan (d ++ c :: r) = (d, c :: r) := by
  intro d
  induction d with
  | nil => intro _; simp [digitSpan, hc]
  | cons a as ih =>
    intro hall
    simp only [List.all_cons, Bool.and_eq_true] at hall
    simp [digitSpan, hall.1, ih hall.2]

/-- Characterisation of a match of `(RET=\d+)\n` anchored at the start of `s`:
it succeeds exactly when `s` is `RET=`, a non-empty digit run, a newline, and
anything after, and the group is `RET=` plus the digits. -/
theorem matchRetAt_iff (s g : List Char) :
    matchRetAt s = some g ↔
      ∃ d v, s = retHead ++ d ++ '\n' :: v ∧ d ≠ [] ∧ d.all isDigitCh = true ∧
        g = retHead ++ d := by
  constructor
  · intro h
    by_cases hl : leadsWith retHead s = true
    · obtain ⟨t, ht⟩ := (leadsWith_iff retHead s).mp hl
      subst ht
      have hdrop : List.drop 4 (retHead ++ t) = t := rfl
      rw [matchRetAt, if_pos hl, hdrop] at h
      have hall := digitSpan_all t
      have happ := digitSpan_append t
      rcases hsp : digitSpan t with ⟨p1, p2⟩
      rw [hsp] at hall happ
      simp only [hsp] at h
      cases p1 with
      | nil => simp at h
      | cons d₁ ds =>
        cases p2 with
        | nil => simp at h
        | cons c v =>
          by_cases hn : c = '\n'
          · subst hn
            simp only [Option.some.injEq] at h
            refine ⟨d₁ :: ds, v, ?_, by simp, hall, h.symm⟩
            rw [← happ, ← List.append_assoc]
          · simp [hn] at h
    · rw [matchRetAt, if_neg hl] at h
      cases h
  · rintro ⟨d, v, hs, hd, hall, hg⟩
    subst hg
    rw [List.append_assoc] at hs
    subst hs
    have hl : leadsWith retHead (retHead ++ (d ++ '\n' :: v)) = true :=
      (leadsWith_iff retHead _).mpr ⟨d ++ '\n' :: v, rfl⟩
    have hdrop : List.drop 4 (retHead ++ (d ++ '\n' :: v)) = d ++ '\n' :: v := rfl
    have hspan : digitSpan (d ++ '\n' :: v) = (d, '\n' :: v) :=
      digitSpan_exact '\n' v rfl d hall
    rw [matchRetAt, if_pos hl, hdrop]
    simp only [hspan]
    cases d with
    | nil => exact absurd rfl hd
    | cons d₁ ds => rfl

/-- `retSearch` never succeeds on the empty buffer. -/
theorem retSearch_nil : retSearch [] = Option.none := rfl

/-- The group returned by `retSearch` is always `RET=` followed by a non-empty
digit run. -/
theorem retSearch_shape : ∀ s g : List Char, retSearch s = some g →
    ∃ d, g = retHead ++ d ∧ d ≠ [] ∧ d.all isDigitCh = true := by
  intro s
  induction s with
  | nil => intro g h; cases h
  | cons c rest ih =>
    intro g h
    rw [retSearch] at h
    cases hm : matchRetAt (c :: rest) with
    | some g' =>
      rw [hm] at h
      obtain ⟨d, v, _, hd, hall, hg⟩ := (matchRetAt_iff (c :: rest) g').mp hm
      cases h
      exact ⟨d, hg, hd, hall⟩
    | none =>
      rw [hm] at h
      exact ih g h

/-- Claim C1: after each read, a match of the completion pattern against the
accumulated stdout records the matched group and stops polling — but it does
not always complete successfully: the post-loop test of src/ssh.py line 273
checks only the clock, not whether the match happened, so an exchange whose
match lands when the elapsed time has reached the budget still evicts the
tunnel and raises `SshCmdTimeoutException`.  Here the remote answers `RET=0`
on the very first poll (the match is recorded in `retval`), the clock reads
1 ≥ timeout at line 273, and the call nevertheless ends in the command-timeout
error with the pool evicted. -/
theorem c1_timeout_raised_despite_match :
    communicate retSearch (some 1) "h-None" ⟨2, ProcStatus.running⟩ ⟨3, ProcStatus.running⟩
        [] trMatchAtBudget 2 (initComm [("h-None", ⟨1, ProcStatus.running⟩)])
      = CommResult.cmdTimeout
          { stdout := String.toList "RET=0\n", stderr := [],
            retval := some (String.toList "RET=0"), pool := [],
            outBuf := [], errBuf := [], sentLines := [[]] } := rfl

/-- Claim C2: the liveness test `if tunnel.poll():` of src/ssh.py line 219 uses
Python truthiness, and `poll()` returns the exit status `0` — which is falsy —
for a process that terminated successfully.  A pooled process that exited with
status 0 is therefore returned as-is and never evicted (first conjunct), while
one that exited with a non-zero status is evicted and respawned (second
conjunct), and a live one is kept (third conjunct). -/
theorem c2_exit_zero_tunnel_kept :
    acquireChannel [("h-None", ⟨1, ProcStatus.exited 0⟩)] "h-None"
        ⟨2, ProcStatus.running⟩ ⟨3, ProcStatus.running⟩
      = (⟨1, ProcStatus.exited 0⟩, [("h-None", ⟨1, ProcStatus.exited 0⟩)]) ∧
    acquireChannel [("h-None", ⟨1, ProcStatus.exited 2⟩)] "h-None"
        ⟨2, ProcStatus.running⟩ ⟨3, ProcStatus.running⟩
      = (⟨3, ProcStatus.running⟩, [("h-None", ⟨3, ProcStatus.running⟩)]) ∧
    acquireChannel [("h-None", ⟨1, ProcStatus.running⟩)] "h-None"
        ⟨2, ProcStatus.running⟩ ⟨3, ProcStatus.running⟩
      = (⟨1, ProcStatus.running⟩, [("h-None", ⟨1, ProcStatus.running⟩)]) :=
  ⟨rfl, rfl, rfl⟩

/-- Claim C8: on pool destruction the `for key in self.tunnels` loop of
`SshTunnelPool.__del__` deletes entries from the dict it is iterating over
(via `kill_tunnel`), so with two registered tunnels CPython raises
`RuntimeError: dictionary changed size during iteration` right after the first
kill: the first tunnel is released, the second never is. -/
theorem c8_second_tunnel_never_released :
    poolDel [("a-None", ⟨1, ProcStatus.running⟩), ("b-None", ⟨2, ProcStatus.running⟩)]
      = ([("b-None", ⟨2, ProcStatus.running⟩)], DelExit.runtimeDictErr) := rfl

/-- Claim C3, counterexample: the shell-mode completion pattern `(RET=\d+)\n`
has no start-of-line anchor, so an output whose only line is `SECRET=3` —
where `RET=3` occurs only as a proper suffix of the token `SECRET=3` — does
signal completion: the exchange succeeds and records the group `RET=3`,
contradicting the claim that such a line does not signal completion. -/
theorem c3_counterexample_secret_line :
    communicate retSearch Option.none "h-None" ⟨2, ProcStatus.running⟩ ⟨3, ProcStatus.running⟩
        [] trSecretLine 2 (initComm [("h-None", ⟨1, ProcStatus.running⟩)])
      = CommResult.ok
          { stdout := String.toList "SECRET=3\n", stderr := [],
            retval := some (String.toList "RET=3"),
            pool := [("h-None", ⟨1, ProcStatus.running⟩)],
            outBuf := [], errBuf := [], sentLines := [[]] } := rfl

/-- Claim C4, counterexample: the first poll finds only the two characters `fo`
immediately available, with no terminating newline.  `_noblock_read_line`
returns this incomplete line at once (nothing stays pending: `outBuf` ends
empty) and the very same iteration appends `fo` plus an added newline to the
accumulated stdout — contradicting the claim that a partial line is retained
as pending input for the next iteration instead of being appended. -/
theorem c4_counterexample_fo_appended :
    communicate (fun _ => Option.none) Option.none "h-None"
        ⟨2, ProcStatus.running⟩ ⟨3, ProcStatus.running⟩ [] trFoPending 1
        (initComm [("h-None", ⟨1, ProcStatus.running⟩)])
      = CommResult.diverged
          { stdout := ['f', 'o', '\n'], stderr := [], retval := Option.none,
            pool := [("h-None", ⟨1, ProcStatus.running⟩)],
            outBuf := [], errBuf := [], sentLines := [[]] } := rfl

/-- Claim C6, counterexample: when no result marker was recorded, shell-mode
`run` raises the parse-failure `SshException` of src/ssh.py line 310 without
touching the pool: the tunnel registered under the session's key is still in
the registry of the resulting state, contradicting the claim that raising this
error evicts it. -/
theorem c6_counterexample_no_eviction :
    runParse
        { stdout := String.toList "x\n", stderr := [], retval := Option.none,
          pool := [("h-None", ⟨1, ProcStatus.running⟩)],
          outBuf := [], errBuf := [], sentLines := [] }
      = RunResult.parseFail
          { stdout := String.toList "x\n", stderr := [], retval := Option.none,
            pool := [("h-None", ⟨1, ProcStatus.running⟩)],
            outBuf := [], errBuf := [], sentLines := [] } := rfl

/-- Claim C7, counterexample: `run` with the negative integer timeout `-5`
passes the validation of src/ssh.py line 283 (`-5` is truthy and an `int`), so
it is not rejected as a configuration error: the wire string is written to the
tunnel (`sentLines` is non-empty) and the call ends in the command-timeout
error with the tunnel evicted — contradicting the claim that a negative
integer is rejected before any wire string is sent and without a
command-timeout error. -/
theorem c7_counterexample_negative_timeout :
    runShell [String.toList "x"] (PyTimeoutArg.pyInt (-5)) "g-None"
        ⟨2, ProcStatus.running⟩ ⟨3, ProcStatus.running⟩ trQuiet 1
        [("g-None", ⟨1, ProcStatus.running⟩)]
      = RunResult.cmdTimeout
          { stdout := [], stderr := [], retval := Option.none, pool := [],
            outBuf := [], errBuf := [],
            sentLines := [shellWire [String.toList "x"]] } := rfl

/-- Claim C9: pool release (`SshTunnelPool.kill_tunnel`) is idempotent: on a
key with no registered process it is a no-op (and, being total, it raises
nothing — the source catches every `kill()` failure and guards the `del`), and
applying it twice leaves the registry exactly as applying it once. -/
theorem c9_release_idempotent (pool : Pool) (key : String) :
    (pool.any (fun e => e.1 == key) = false → kill_tunnel pool key = pool) ∧
    kill_tunnel (kill_tunnel pool key) key = kill_tunnel pool key := by
  constructor
  · intro h
    simp [kill_tunnel, h]
  · by_cases h : pool.any (fun e => e.1 == key)
    · simp [kill_tunnel, h, filterKey_not_any]
    · simp only [Bool.not_eq_true] at h
      simp [kill_tunnel, h]

/-- Claim C3, amended: in shell mode the completion pattern `(RET=\d+)\n` used
by `run` signals completion exactly when the accumulated stdout buffer
contains, at any position (not only at the beginning of a line), the four
characters `RET=` followed by one or more digits followed by a newline; in
particular a buffer whose only line is `SECRET=3` does signal completion. -/
theorem c3_ret_marker_matches_anywhere (s : List Char) :
    (retSearch s).isSome = true ↔
      ∃ u d v, s = u ++ retHead ++ d ++ '\n' :: v ∧ d ≠ [] ∧ d.all isDigitCh = true := by
  induction s with
  | nil =>
    constructor
    · intro h
      cases h
    · rintro ⟨u, d, v, hs, hd, hall⟩
      exfalso
      cases u <;> simp at hs
  | cons c rest ih =>
    simp only [retSearch]
    cases hm : matchRetAt (c :: rest) with
    | some g =>
      simp only [Option.isSome_some, true_iff]
      obtain ⟨d, v, hs, hd, hall, _⟩ := (matchRetAt_iff (c :: rest) g).mp hm
      exact ⟨[], d, v, by simpa using hs, hd, hall⟩
    | none =>
      rw [ih]
      constructor
      · rintro ⟨u, d, v, hs, hd, hall⟩
        refine ⟨c :: u, d, v, ?_, hd, hall⟩
        simp only [List.cons_append]
        rw [hs]
      · rintro ⟨u, d, v, hs, hd, hall⟩
        cases u with
        | nil =>
          exfalso
          have hsome : matchRetAt (c :: rest) = some (retHead ++ d) :=
            (matchRetAt_iff _ _).mpr ⟨d, v, by simpa using hs, hd, hall, rfl⟩
          rw [hm] at hsome
          cases hsome
        | cons u₁ us =>
          simp only [List.cons_append, List.cons.injEq] at hs
          exact ⟨us, d, v, hs.2, hd, hall⟩

/-- The reader consumes a run of plain characters (no newline, no carriage
return) by moving it onto the accumulator. -/
theorem noblockAux_chars : ∀ pre : List Char, '\n' ∉ pre → '\r' ∉ pre →
    ∀ (acc : List Char) (rest : List (Option Char)),
      noblockAux acc (pre.map some ++ rest) = noblockAux (acc ++ pre) rest := by
  intro pre
  induction pre with
  | nil => intro _ _ acc rest; simp
  | cons c cs ih =>
    intro h1 h2 acc rest
    have hc1 : ¬(c = '\n') := by intro e; subst e; exact h1 (List.mem_cons_self _ _)
    have hc2 : ¬(c = '\r') := by intro e; subst e; exact h2 (List.mem_cons_self _ _)
    have h1' : '\n' ∉ cs := fun m => h1 (List.mem_cons_of_mem _ m)
    have h2' : '\r' ∉ cs := fun m => h2 (List.mem_cons_of_mem _ m)
    simp only [List.map_cons, List.cons_append, noblockAux, if_neg hc2, if_neg hc1]
    show noblockAux (acc ++ [c]) (List.map some cs ++ rest) = _
    rw [ih h1' h2' (acc ++ [c]) rest, List.append_assoc]
    rfl

/-- Claim C4, amended: reading is line-oriented with carriage returns ignored
and newline as the line terminator (first conjunct: a newline-terminated line
is returned without its newline, the remainder staying pending), but a partial
line without a terminating newline is not retained as pending input: it is
returned in full at once, with nothing left pending, and the polling loop then
appends it (with an added newline) to the accumulated buffer in the very
iteration that read it. -/
theorem c4_partial_read_returned_at_once (pre : List Char) (post : List (Option Char))
    (h1 : '\n' ∉ pre) (h2 : '\r' ∉ pre) :
    noblock_read_line (pre.map some ++ some '\n' :: post) = (pre, post) ∧
    noblock_read_line (pre.map some) = (pre, []) := by
  constructor
  · rw [noblock_read_line, noblockAux_chars pre h1 h2 [] (some '\n' :: post)]
    simp [noblockAux]
  · rw [noblock_read_line]
    have h := noblockAux_chars pre h1 h2 [] []
    simp only [List.append_nil, List.nil_append] at h
    rw [h]
    rfl

/-- Witness for C4 at the concrete partial line `fo`. -/
theorem c4_partial_read_witness :
    noblock_read_line ([some 'f', some 'o'] ++ some '\n' :: [some 'x'])
        = (['f', 'o'], [some 'x']) ∧
    noblock_read_line ([some 'f', some 'o']) = (['f', 'o'], []) := by
  have h := c4_partial_read_returned_at_once ['f', 'o'] [some 'x'] (by decide) (by decide)
  simpa using h

/-- Claim C6, amended: when no result marker was recorded after the exchange,
shell-mode `run` raises the parse-failure `SshException` of src/ssh.py line 310
(a transport error), but — unlike the other transport errors — it does not
evict the pooled tunnel: the state, its pool registry included, is passed
through unchanged. -/
theorem c6_parse_failure_without_eviction (st : CommState)
    (h : st.retval = Option.none) :
    runParse st = RunResult.parseFail st := by
  simp only [runParse, h]

/-- Witness for C6 at a concrete state holding a registered tunnel. -/
theorem c6_parse_failure_witness :
    runParse
        { stdout := [], stderr := [], retval := Option.none,
          pool := [("d-None", ⟨7, ProcStatus.running⟩)],
          outBuf := [], errBuf := [], sentLines := [] }
      = RunResult.parseFail
          { stdout := [], stderr := [], retval := Option.none,
            pool := [("d-None", ⟨7, ProcStatus.running⟩)],
            outBuf := [], errBuf := [], sentLines := [] } :=
  c6_parse_failure_without_eviction _ rfl

/-- A `while` loop whose guard is false at its first evaluation exits at once
with the state untouched, whatever the fuel. -/
theorem commLoop_guard_false (m : List Char → Option (List Char)) (gOk : Nat → Bool)
    (key : String) (arr : Nat → List (Option Char) × List (Option Char))
    (fuel i : Nat) (st : CommState) (h : gOk i = false) :
    commLoop m gOk key arr i fuel st = LoopExit.guardFalse st := by
  cases fuel with
  | zero => simp [commLoop, h]
  | succ n => simp [commLoop, h]

/-- An exchange whose guard is false at the first evaluation and whose
post-loop test fires writes the wire string, reads nothing, evicts the tunnel
and raises the command-timeout error. -/
theorem communicate_immediate_timeout (m : List Char → Option (List Char))
    (t : Option Int) (key : String) (f1 f2 : Proc) (wire : List Char)
    (tr : CommTrace) (fuel : Nat) (stIn : CommState)
    (hg : guardTimeOk t (tr.elapsedGuard 0) = false)
    (hp : postTimedOut t tr.elapsedEnd = true) :
    communicate m t key f1 f2 wire tr fuel stIn
      = CommResult.cmdTimeout
          { stIn with
            pool := kill_tunnel (acquireChannel stIn.pool key f1 f2).2 key,
            sentLines := stIn.sentLines ++ [wire] } := by
  simp only [communicate]
  rw [commLoop_guard_false m _ key tr.arrivals fuel 0 _ hg, hp]
  rfl

/-- Claim C7, amended: a `timeout` argument that is truthy and not an integer
is rejected by the validation of src/ssh.py line 283 as a `TypeError`
configuration error, before any wire string is sent (first conjunct); but a
negative integer passes that validation (it is truthy and an `int`): the wire
string is written to the tunnel, the polling loop exits at its first guard
evaluation, and the call fails with the command-timeout error, evicting the
tunnel (second conjunct; the hypotheses say only that the wall clock is not
negative). -/
theorem c7_nonint_rejected_negative_times_out (cmd : List (List Char)) (key : String)
    (f1 f2 : Proc) (tr : CommTrace) (fuel : Nat) (pool : Pool) :
    runShell cmd PyTimeoutArg.truthyNonInt key f1 f2 tr fuel pool = RunResult.typeErr ∧
    ∀ n : Int, n < 0 → 0 ≤ tr.elapsedGuard 0 → 0 ≤ tr.elapsedEnd →
      runShell cmd (PyTimeoutArg.pyInt n) key f1 f2 tr fuel pool
        = RunResult.cmdTimeout
            { stdout := [], stderr := [], retval := Option.none,
              pool := kill_tunnel (acquireChannel pool key f1 f2).2 key,
              outBuf := [], errBuf := [], sentLines := [shellWire cmd] } := by
  constructor
  · rfl
  · intro n hn h0 hEnd
    have hn0 : ¬(n = 0) := by omega
    have hbad : timeoutBad (PyTimeoutArg.pyInt n) = false := by
      simp [timeoutBad, isIntArg]
    have hg : guardTimeOk (some n) (tr.elapsedGuard 0) = false := by
      simp only [guardTimeOk, if_neg hn0, decide_eq_false_iff_not, not_lt]
      omega
    have hp : postTimedOut (some n) tr.elapsedEnd = true := by
      simp only [postTimedOut, if_neg hn0, decide_eq_true_eq]
      omega
    have hcomm := communicate_immediate_timeout retSearch (some n) key f1 f2
      (shellWire cmd) tr fuel (initComm pool) hg hp
    simp only [runShell, hbad, Bool.false_eq_true, if_false, toTimeout]
    rw [hcomm]
    rfl

/-- Witness for C7: the truthy non-integer `timeout` is rejected as a
`TypeError`; the negative integer `timeout = -1` is not rejected — the wire
string is sent and the call ends in the command-timeout error with the tunnel
evicted. -/
theorem c7_nonint_rejected_witness :
    runShell [String.toList "x"] PyTimeoutArg.truthyNonInt "h-None"
        ⟨2, ProcStatus.running⟩ ⟨3, ProcStatus.running⟩ trQuiet 1 [] = RunResult.typeErr ∧
    runShell [String.toList "x"] (PyTimeoutArg.pyInt (-1)) "h-None"
        ⟨2, ProcStatus.running⟩ ⟨3, ProcStatus.running⟩ trQuiet 1
        [("h-None", ⟨1, ProcStatus.running⟩)]
      = RunResult.cmdTimeout
          { stdout := [], stderr := [], retval := Option.none, pool := [],
            outBuf := [], errBuf := [],
            sentLines := [shellWire [String.toList "x"]] } :=
  ⟨(c7_nonint_rejected_negative_times_out [String.toList "x"] "h-None"
      ⟨2, ProcStatus.running⟩ ⟨3, ProcStatus.running⟩ trQuiet 1 []).1,
   (c7_nonint_rejected_negative_times_out [String.toList "x"] "h-None"
      ⟨2, ProcStatus.running⟩ ⟨3, ProcStatus.running⟩ trQuiet 1
      [("h-None", ⟨1, ProcStatus.running⟩)]).2 (-1) (by decide) (by decide) (by decide)⟩

/-- `pySplitFirst` splits the group `RET=` ++ `d` at the `=`. -/
theorem pySplitFirst_retHead (d : List Char) :
    pySplitFirst '=' (retHead ++ d) = some (['R', 'E', 'T'], d) := rfl

/-- Every `retval` the polling loop can produce comes from the completion
matcher: if every recorded result of the input state is a matcher output, the
same holds for the state carried by the loop's exit, whatever that exit is. -/
theorem commLoop_retval_src (m : List Char → Option (List Char)) (gOk : Nat → Bool)
    (key : String) (arr : Nat → List (Option Char) × List (Option Char)) :
    ∀ (fuel i : Nat) (st : CommState),
      (∀ g, st.retval = some g → ∃ s0, m s0 = some g) →
      ∀ g, (exitState (commLoop m gOk key arr i fuel st)).retval = some g →
        ∃ s0, m s0 = some g := by
  intro fuel
  induction fuel with
  | zero =>
    intro i st hinv g hg
    rw [commLoop] at hg
    split at hg <;> exact hinv g hg
  | succ fuel ih =>
    intro i st hinv g hg
    simp only [commLoop] at hg
    split at hg
    · split at hg
      · exact ih (i + 1) _ (by exact hinv) g hg
      · split at hg
        next g' heq =>
          have hgg : some g' = some g := hg
          injection hgg with hgg
          subst hgg
          exact ⟨_, heq⟩
        next heq =>
          split at hg
          · exact hinv g hg
          · split at hg
            · exact hinv g hg
            · split at hg
              · exact hinv g hg
              · exact ih (i + 1) _ (by exact hinv) g hg
    · exact hinv g hg

/-- If an exchange returns normally and the input state's recorded results all
come from the matcher, then the recorded result of the returned state is a
matcher output. -/
theorem communicate_ok_shape (m : List Char → Option (List Char)) (t : Option Int)
    (key : String) (f1 f2 : Proc) (wire : List Char) (tr : CommTrace) (fuel : Nat)
    (stIn : CommState) (st : CommState)
    (hinv : ∀ g, stIn.retval = some g → ∃ s0, m s0 = some g)
    (h : communicate m t key f1 f2 wire tr fuel stIn = CommResult.ok st) :
    ∀ g, st.retval = some g → ∃ s0, m s0 = some g := by
  intro g hg
  simp only [communicate] at h
  split at h
  · cases h
  · cases h
  next st₁ heq =>
    split at h
    · cases h
    · injection h with h
      subst h
      have hsrc := commLoop_retval_src m (fun i => guardTimeOk t (tr.elapsedGuard i)) key
        tr.arrivals fuel 0
        { stIn with
          pool := (acquireChannel stIn.pool key f1 f2).2,
          sentLines := stIn.sentLines ++ [wire] } hinv g
      rw [heq] at hsrc
      exact hsrc hg
  next st₁ heq =>
    split at h
    · cases h
    · injection h with h
      subst h
      have hsrc := commLoop_retval_src m (fun i => guardTimeOk t (tr.elapsedGuard i)) key
        tr.arrivals fuel 0
        { stIn with
          pool := (acquireChannel stIn.pool key f1 f2).2,
          sentLines := stIn.sentLines ++ [wire] } hinv g
      rw [heq] at hsrc
      exact hsrc hg

/-- Claim C5: a shell-mode `run` whose exchange completes with a recorded
result whose parsed code is non-zero raises `SshCmdFailedException` carrying
exactly the digits of the exit code, with the captured stdout and stderr still
in the resulting state, and without touching the pool registry (the state is
changed only in its `retval` field).  The digits are genuine: the recorded
group is necessarily `RET=` followed by a non-empty digit run. -/
theorem c5_nonzero_code_raises_cmd_failed (cmd : List (List Char)) (t : PyTimeoutArg)
    (key : String) (f1 f2 : Proc) (tr : CommTrace) (fuel : Nat) (pool : Pool)
    (st : CommState) (g : List Char)
    (hval : timeoutBad t = false)
    (hcomm : communicate retSearch (toTimeout t) key f1 f2 (shellWire cmd) tr fuel
        (initComm pool) = CommResult.ok st)
    (hret : st.retval = some g)
    (hnz : g ≠ retHead ++ ['0']) :
    ∃ d, g = retHead ++ d ∧ d ≠ [] ∧ d.all isDigitCh = true ∧ d ≠ ['0'] ∧
      runShell cmd t key f1 f2 tr fuel pool
        = RunResult.cmdFailed d { st with retval := some d } := by
  obtain ⟨s0, hs0⟩ := communicate_ok_shape retSearch (toTimeout t) key f1 f2
    (shellWire cmd) tr fuel (initComm pool) st
    (fun g' hg' => Option.noConfusion hg') hcomm g hret
  obtain ⟨d, hgd, hd, hall⟩ := retSearch_shape s0 g hs0
  have hdnz : d ≠ ['0'] := by
    intro e
    rw [e] at hgd
    exact hnz hgd
  refine ⟨d, hgd, hd, hall, hdnz, ?_⟩
  subst hgd
  simp only [runShell, hval, Bool.false_eq_true, if_false]
  rw [hcomm]
  simp only [runParse, hret, pySplitFirst_retHead]
  rw [if_pos hdnz]

/-- Witness for C5: `run(["false"])` against a transport replying `RET=1`
raises the command-failure error carrying the code `1`, with stdout captured
and the tunnel still pooled. -/
theorem c5_nonzero_code_witness :
    ∃ d, String.toList "RET=1" = retHead ++ d ∧ d ≠ [] ∧ d.all isDigitCh = true ∧
      d ≠ ['0'] ∧
      runShell [String.toList "false"] PyTimeoutArg.pyNone "h-None"
          ⟨2, ProcStatus.running⟩ ⟨3, ProcStatus.running⟩ trRetOne 2
          [("h-None", ⟨1, ProcStatus.running⟩)]
        = RunResult.cmdFailed d
            { stdout := String.toList "RET=1\n", stderr := [], retval := some d,
              pool := [("h-None", ⟨1, ProcStatus.running⟩)], outBuf := [], errBuf := [],
              sentLines := [shellWire [String.toList "false"]] } :=
  c5_nonzero_code_raises_cmd_failed [String.toList "false"] PyTimeoutArg.pyNone "h-None"
    ⟨2, ProcStatus.running⟩ ⟨3, ProcStatus.running⟩ trRetOne 2
    [("h-None", ⟨1, ProcStatus.running⟩)]
    { stdout := String.toList "RET=1\n", stderr := [],
      retval := some (String.toList "RET=1"),
      pool := [("h-None", ⟨1, ProcStatus.running⟩)], outBuf := [], errBuf := [],
      sentLines := [shellWire [String.toList "false"]] }
    (String.toList "RET=1") rfl rfl rfl (by decide)

/-- An exchange run with `timeout = None` never raises the command-timeout
error: the post-loop test of line 273 is vacuous for a falsy timeout. -/
theorem communicate_none_never_times_out (m : List Char → Option (List Char))
    (key : String) (f1 f2 : Proc) (wire : List Char) (tr : CommTrace) (fuel : Nat)
    (stIn : CommState) :
    ∀ st, communicate m Option.none key f1 f2 wire tr fuel stIn
      ≠ CommResult.cmdTimeout st := by
  intro st h
  simp only [communicate] at h
  split at h <;> simp [postTimedOut] at h

/-- Claim C10: a timeout of `0` behaves exactly like passing no timeout at
all — `0` is falsy, so the validation of line 283, the guard of line 230 and
the post-loop test of line 273 all treat it as absent: the exchange is
identical to one with `timeout = None` (first conjunct), it can never raise
the command-timeout error (second conjunct), and a whole shell-mode `run` with
`timeout = 0` equals one with `timeout = None` (third conjunct). -/
theorem c10_zero_timeout_like_none (m : List Char → Option (List Char)) (key : String)
    (f1 f2 : Proc) (wire : List Char) (tr : CommTrace) (fuel : Nat) (stIn : CommState)
    (cmd : List (List Char)) (pool : Pool) :
    communicate m (some 0) key f1 f2 wire tr fuel stIn
      = communicate m Option.none key f1 f2 wire tr fuel stIn ∧
    (∀ st, communicate m (some 0) key f1 f2 wire tr fuel stIn
      ≠ CommResult.cmdTimeout st) ∧
    runShell cmd (PyTimeoutArg.pyInt 0) key f1 f2 tr fuel pool
      = runShell cmd PyTimeoutArg.pyNone key f1 f2 tr fuel pool :=
  ⟨rfl, fun st => communicate_none_never_times_out m key f1 f2 wire tr fuel stIn st, rfl⟩

/-- Witness for C3 at the concrete buffer `SECRET=3` + newline: the marker is
found, and the buffer indeed decomposes as something, `RET=`, the digit `3`
and a newline. -/
theorem c3_ret_marker_witness :
    (retSearch (String.toList "SECRET=3\n")).isSome = true ↔
      ∃ u d v, String.toList "SECRET=3\n" = u ++ retHead ++ d ++ '\n' :: v ∧
        d ≠ [] ∧ d.all isDigitCh = true :=
  c3_ret_marker_matches_anywhere (String.toList "SECRET=3\n")

/-- Witness for C10 at concrete inputs: with `timeout = 0` the quiet exchange
equals the `None` one, is not the command-timeout error, and the two `run`
calls coincide. -/
theorem c10_zero_timeout_witness :
    communicate (fun _ => Option.none) (some 0) "h-None" ⟨2, ProcStatus.running⟩
        ⟨3, ProcStatus.running⟩ [] trQuiet 1 (initComm [])
      = communicate (fun _ => Option.none) Option.none "h-None" ⟨2, ProcStatus.running⟩
        ⟨3, ProcStatus.running⟩ [] trQuiet 1 (initComm []) ∧
    communicate (fun _ => Option.none) (some 0) "h-None" ⟨2, ProcStatus.running⟩
        ⟨3, ProcStatus.running⟩ [] trQuiet 1 (initComm [])
      ≠ CommResult.cmdTimeout (initComm []) ∧
    runShell [String.toList "x"] (PyTimeoutArg.pyInt 0) "h-None" ⟨2, ProcStatus.running⟩
        ⟨3, ProcStatus.running⟩ trQuiet 1 []
      = runShell [String.toList "x"] PyTimeoutArg.pyNone "h-None" ⟨2, ProcStatus.running⟩
        ⟨3, ProcStatus.running⟩ trQuiet 1 [] :=
  ⟨(c10_zero_timeout_like_none (fun _ => Option.none) "h-None" ⟨2, ProcStatus.running⟩
      ⟨3, ProcStatus.running⟩ [] trQuiet 1 (initComm []) [String.toList "x"] []).1,
   (c10_zero_timeout_like_none (fun _ => Option.none) "h-None" ⟨2, ProcStatus.running⟩
      ⟨3, ProcStatus.running⟩ [] trQuiet 1 (initComm []) [String.toList "x"] []).2.1
      (initComm []),
   (c10_zero_timeout_like_none (fun _ => Option.none) "h-None" ⟨2, ProcStatus.running⟩
      ⟨3, ProcStatus.running⟩ [] trQuiet 1 (initComm []) [String.toList "x"] []).2.2⟩

/-- Witness for C9 at a concrete pool and key: the key `b-None` is absent from
the one-entry pool, so releasing it changes nothing, and releasing twice equals
releasing once. -/
theorem c9_release_idempotent_witness :
    kill_tunnel [("a-None", ⟨1, ProcStatus.running⟩)] "b-None"
        = [("a-None", ⟨1, ProcStatus.running⟩)] ∧
    kill_tunnel (kill_tunnel [("a-None", ⟨1, ProcStatus.running⟩)] "b-None") "b-None"
        = kill_tunnel [("a-None", ⟨1, ProcStatus.running⟩)] "b-None" :=
  ⟨(c9_release_idempotent [("a-None", ⟨1, ProcStatus.running⟩)] "b-None").1 (by decide),
   (c9_release_idempotent [("a-None", ⟨1, ProcStatus.running⟩)] "b-None").2⟩

end SshModel
